import Mathlib

/-!
Verification of the rosh-hashana-greeting single-page application.

The application (src/index.tsx, plus two near-duplicate variants in
src/unnamed/part_000 and src/unnamed/part_001) is a DOM state machine:
the user uploads an image, picks a style, invokes a generative-image
service, and downloads a composited greeting card.

This file shallowly embeds the application's state and its event
handlers as Lean definitions, translated from the TypeScript source:

* module-level mutable variables (`uploadedImageBase64`,
  `uploadedImageType`, `selectedStyle`), the generate button's
  `disabled` flag, the result image's `src`, and the visible view
  become fields of an `AppState` record;
* each event handler (file change, style click, generate click, reset
  click) becomes a pure function from the old state (plus the
  environment's input: the file-read outcome or the service response)
  to the new state, together with flags recording the observable
  side effects (alert raised, request submitted);
* JavaScript truthiness of the `string | null` variables is modelled
  explicitly (`null` and the empty string are falsy);
* the card-composer arithmetic (`Math.max(40, width / 12)`, `* 1.5`)
  is embedded over `ℚ`, since the widths involved are exact in both
  IEEE doubles and rationals for the cases at issue.
-/

namespace RoshHashana

/-- JavaScript truthiness of a `string | null` value: `null` and the
empty string are falsy, every other string is truthy. -/
def truthy : Option String → Bool
  | none => false
  | some s => !s.isEmpty

/-- The three mutually exclusive views of the UI
(`'upload' | 'loading' | 'result'` in src/index.tsx). -/
inductive View where
  | upload
  | loading
  | result
deriving DecidableEq, Repr

/-- Visibility of the three view `div`s: each field records whether the
`hidden` CSS class is present on the corresponding element. -/
structure Visibility where
  uploadHidden : Bool
  loadingHidden : Bool
  resultHidden : Bool
deriving DecidableEq, Repr

/-- `showView` from src/index.tsx lines 31-42: adds `hidden` to all three
views, then removes it from the view selected by `viewMap[viewToShow]`. -/
def showView (viewToShow : View) : Visibility :=
  let allHidden : Visibility := ⟨true, true, true⟩
  match viewToShow with
  | .upload => { allHidden with uploadHidden := false }
  | .loading => { allHidden with loadingHidden := false }
  | .result => { allHidden with resultHidden := false }

/-- Number of views left visible by a `Visibility` configuration. -/
def visibleCount (v : Visibility) : Nat :=
  (if v.uploadHidden then 0 else 1) +
  (if v.loadingHidden then 0 else 1) +
  (if v.resultHidden then 0 else 1)

/-- The application state: the three module-level `string | null`
variables of src/index.tsx, the generate button's `disabled` property,
the result image element's `src` (absent until first populated), and
which view is currently shown (the argument of the last `showView`
call). -/
structure AppState where
  uploadedImageBase64 : Option String
  uploadedImageType : Option String
  selectedStyle : Option String
  generateDisabled : Bool
  resultImageSrc : Option String
  view : View
deriving DecidableEq, Repr

/-- State at startup: all three variables are `null` (src/index.tsx
lines 4-6), the final statement `showView('upload')` (line 235) shows
the upload view, the result image has no generated content yet, and
the generate button starts hidden and disabled in the markup (the
reset handler, which "Resets the application to its initial state",
restores `generateButton.disabled = true`). -/
def initialState : AppState :=
  { uploadedImageBase64 := none
    uploadedImageType := none
    selectedStyle := none
    generateDisabled := true
    resultImageSrc := none
    view := .upload }

/-- `updateGenerateButtonState` (src/index.tsx lines 47-49):
`generateButton.disabled = !(uploadedImageBase64 && selectedStyle)`. -/
def updateGenerateButtonState (s : AppState) : AppState :=
  { s with generateDisabled :=
      !(truthy s.uploadedImageBase64 && truthy s.selectedStyle) }

/-- The generate action is enabled (the button is not disabled). -/
def canGenerate (s : AppState) : Bool :=
  !s.generateDisabled

/-- Outcome of `fileToBase64` (src/index.tsx lines 54-67): the promise
resolves with the base64 payload or rejects with a read error. -/
inductive ReadResult where
  | ok (base64 : String)
  | err
deriving DecidableEq, Repr

/-- The `fileUpload` change handler (src/index.tsx lines 74-96) for a
selected file of MIME type `ftype` whose read gives `r`. The handler
assigns `uploadedImageType = file.type` before awaiting
`fileToBase64(file)`; on success it stores the base64 string and calls
`updateGenerateButtonState()`, on rejection the `catch` block alerts
(second component `true`) and nothing further runs. -/
def fileUploadChange (s : AppState) (ftype : String) (r : ReadResult) :
    AppState × Bool :=
  let s1 := { s with uploadedImageType := some ftype }
  match r with
  | .ok base64 =>
      (updateGenerateButtonState { s1 with uploadedImageBase64 := some base64 },
       false)
  | .err => (s1, true)

/-- A style button's click handler (src/index.tsx lines 101-108):
`selectedStyle = button.dataset.style || null` (so a missing or empty
`data-style` attribute stores `null`), then
`updateGenerateButtonState()`. -/
def styleClick (s : AppState) (dataStyle : Option String) : AppState :=
  let sel : Option String :=
    match dataStyle with
    | some d => if d.isEmpty then none else some d
    | none => none
  updateGenerateButtonState { s with selectedStyle := sel }

/-- The style-to-prompt table of src/index.tsx lines 121-128
(`stylePrompts`), as an association list in source order. -/
def stylePrompts : List (String × String) :=
  [("childish", "Redraw the entire image in a cute, colorful, and childish illustration style. Then, add a matching decorative frame around it suitable for a Rosh Hashanah (Jewish New Year) greeting card. The subject of the original image must remain clearly recognizable. Do not add any text or letters."),
   ("festive", "Transform the entire image into a luxurious and festive renaissance-style painting. Then, add a matching elegant frame with gold elements, flowers, and pomegranates suitable for a Rosh Hashanah (Jewish New Year) greeting card. The subject of the original image must remain clearly recognizable. Do not add any text or letters."),
   ("natural", "Add a festive frame suitable for a Rosh Hashanah (Jewish New Year) greeting card around the original image. The frame should include elegant elements like flowers and pomegranates. CRITICAL INSTRUCTION: Do not change, alter, or redraw the original image in any way. The original photo must be preserved exactly as it is, inside the new frame. Do not add any text or letters."),
   ("nostalgic", "Transform the entire image into a nostalgic, early 20th-century \"Shana Tova\" greeting postcard illustration. The style should be a hand-drawn illustration, not a photograph, on a light-colored, old paper or parchment textured background. Use a soft yet rich color palette of reds, pinks, purples, and light greens, with a slightly faded effect as if from an old print. Then, add a matching decorative frame incorporating classic \"Shana Tova\" motifs like flowers, doves, pomegranates, and apples. The subject of the original image must remain clearly recognizable, and the overall atmosphere should be innocent and sweet. Do not add any text or letters."),
   ("floral", "Change the clothes of all people in the image to simple white shirts and replace the background with a vibrant, sunlit field of flowers. Add a decorative frame made of colorful watercolor flowers around the entire image, including 2-3 small bees within the frame. CRITICAL INSTRUCTION: The faces of the people in the original image must be preserved perfectly and must not be altered, redrawn, or distorted in any way. The final result should be suitable for a Rosh Hashanah (Jewish New Year) greeting card. Do not add any text or letters."),
   ("sketch", "Transform the uploaded photo into an artistic pencil sketch, presented on a clean white paper background. Surround the entire image with a DELICATE and elegant fine-line hand-drawn frame. This frame should be composed of Rosh Hashanah elements like apples, bees, and flowers. The elements within the frame (like the flowers and apples) should have subtle, gentle touches of watercolor, adding a hint of color. The frame itself should be delicate and not thick or overpowering. CRITICAL INSTRUCTION: The faces of the people in the original image must be preserved perfectly as part of the sketch, remaining clearly recognizable and not distorted. The final result should be suitable for a Rosh Hashanah (Jewish New Year) greeting card. Do not add any text or letters.")]

/-- Own-property lookup `stylePrompts[key]` of the object literal. -/
def lookupStyle (key : String) : Option String :=
  (stylePrompts.find? (fun p => p.1 == key)).map (fun p => p.2)

/-- `const prompt = stylePrompts[selectedStyle] || stylePrompts['festive']`
(src/index.tsx line 130): JavaScript `||` keeps the left operand when it
is truthy (a non-empty string) and otherwise evaluates to the right one. -/
def promptFor (key : String) : Option String :=
  if truthy (lookupStyle key) then lookupStyle key else lookupStyle "festive"

/-- The (shorter) style-to-prompt table of the src/unnamed/part_000
variant, lines 120-125 of that file. -/
def stylePrompts000 : List (String × String) :=
  [("childish", "in a cute, colorful, and childish drawing style with fun illustrations"),
   ("festive", "in a luxurious and festive style with elegant gold elements, flowers, and pomegranates"),
   ("natural", "in a natural, organic style using leaves, flowers, and fruits"),
   ("nostalgic", "with a nostalgic, vintage postcard look using pastel colors")]

/-- Own-property lookup in the part_000 table. -/
def lookupStyle000 (key : String) : Option String :=
  (stylePrompts000.find? (fun p => p.1 == key)).map (fun p => p.2)

/-- `const specificPrompt = stylePrompts[selectedStyle] || 'in a festive style'`
(src/unnamed/part_000 line 127): the fallback is a fixed literal, not a
table entry. -/
def specificPrompt000 (key : String) : String :=
  match lookupStyle000 key with
  | some p => if p.isEmpty then "in a festive style" else p
  | none => "in a festive style"

/-- `basePrompt` of src/unnamed/part_000 line 128: the specific prompt
interpolated into a fixed template. -/
def basePrompt000 (key : String) : String :=
  "Create a beautiful, decorative frame around the provided image for the Jewish New Year (Rosh Hashanah). It is crucial that the original image remains completely unchanged. The frame should seamlessly integrate with the image "
    ++ specificPrompt000 key
    ++ ". Do not add any text, greetings, or letters to the image or the frame."

/-- `inlineData` of a response content part: base64 `data` plus
`mimeType`. -/
structure InlineData where
  data : String
  mimeType : String
deriving DecidableEq, Repr

/-- One content part of the service response: either carries
`inlineData`, or `text`, or both, or neither. -/
structure Part where
  inlineData : Option InlineData
  text : Option String
deriving DecidableEq, Repr

/-- `parts.find(part => part.inlineData)` (src/index.tsx line 147):
the first part whose `inlineData` is present (an object is truthy). -/
def findInlinePart : List Part → Option Part
  | [] => none
  | p :: ps => if p.inlineData.isSome then some p else findInlinePart ps

/-- The optional chain plus find plus `imagePart?.inlineData` of
src/index.tsx lines 147-150: `parts` is
`response.candidates?.[0]?.content?.parts` (absent when any link of the
chain is missing). -/
def extractImage (parts : Option (List Part)) : Option InlineData :=
  (parts.bind findInlinePart).bind (fun p => p.inlineData)

/-- Outcome of the awaited `ai.models.generateContent` call: either the
call throws (network, auth, quota, malformed response), or it returns a
response whose `candidates?.[0]?.content?.parts` chain yields the given
optional parts list. -/
inductive ServiceOutcome where
  | threw
  | response (parts : Option (List Part))
deriving DecidableEq, Repr

/-- `data:${mimeType};base64,${data}` as written to `resultImage.src`. -/
def mkDataUrl (mimeType data : String) : String :=
  "data:" ++ mimeType ++ ";base64," ++ data

/-- Result of one run of the generate click handler: the new state,
whether an `alert` fired, and whether a request was submitted to the
service. -/
structure GenResult where
  state : AppState
  alerted : Bool
  requested : Bool
deriving DecidableEq, Repr

/-- The `generateButton` click handler (src/index.tsx lines 113-161).
Guard: `if (!uploadedImageBase64 || !selectedStyle || !uploadedImageType)`
alerts and returns before any other statement. Otherwise
`showView('loading')`, the request is submitted, and:
on a thrown error the `catch` block alerts and calls `showView('upload')`;
on a response, the first inline-image part (if any) populates
`resultImage.src` and `showView('result')` runs; with no inline part the
handler throws, landing in the same `catch` block. -/
def generateClick (s : AppState) (outcome : ServiceOutcome) : GenResult :=
  if !truthy s.uploadedImageBase64 || !truthy s.selectedStyle
      || !truthy s.uploadedImageType then
    { state := s, alerted := true, requested := false }
  else
    let sLoading := { s with view := View.loading }
    match outcome with
    | .threw =>
        { state := { sLoading with view := View.upload }
          alerted := true, requested := true }
    | .response parts =>
        match extractImage parts with
        | some d =>
            { state := { sLoading with
                resultImageSrc := some (mkDataUrl d.mimeType d.data)
                view := View.result }
              alerted := false, requested := true }
        | none =>
            { state := { sLoading with view := View.upload }
              alerted := true, requested := true }

/-- The `resetButton` click handler (src/index.tsx lines 216-232): nulls
the three variables, disables the generate button, and shows the upload
view. It does not touch `resultImage.src`. -/
def resetClick (s : AppState) : AppState :=
  { s with
    uploadedImageBase64 := none
    uploadedImageType := none
    selectedStyle := none
    generateDisabled := true
    view := View.upload }

/-- The user-driven events of the application. -/
inductive Event where
  | fileSelect (ftype : String) (r : ReadResult)
  | styleSelect (dataStyle : Option String)
  | generate (outcome : ServiceOutcome)
  | reset
deriving Repr

/-- One event-handler run, projected to the resulting state. -/
def step (s : AppState) : Event → AppState
  | .fileSelect ftype r => (fileUploadChange s ftype r).1
  | .styleSelect d => styleClick s d
  | .generate o => (generateClick s o).state
  | .reset => resetClick s

/-- States reachable from startup by a sequence of handler runs. -/
inductive Reachable : AppState → Prop where
  | init : Reachable initialState
  | step {s : AppState} (hs : Reachable s) (e : Event) : Reachable (step s e)

/-- Scenario: from startup, upload a file, pick the `festive` style, and
run a generation whose response carries one inline-image part. -/
def afterSuccessState : AppState :=
  step (step (step initialState
      (Event.fileSelect "image/png" (ReadResult.ok "QUJD")))
      (Event.styleSelect (some "festive")))
    (Event.generate (ServiceOutcome.response (some
      [{ inlineData := some { data := "R0VO", mimeType := "image/png" }
         text := none }])))

/-- Scenario: the state reached by clicking reset right after a
successful generation. -/
def resetAfterSuccessState : AppState :=
  step afterSuccessState Event.reset

/-- The button-state invariant: the generate action is enabled exactly
when both the image and the style variables are (truthily) set. -/
def GenInv (s : AppState) : Prop :=
  canGenerate s = (truthy s.uploadedImageBase64 && truthy s.selectedStyle)

instance (s : AppState) : Decidable (GenInv s) := by
  unfold GenInv; infer_instance

/-- Whether view `v` is visible (its `hidden` class absent) in a
visibility configuration. -/
def viewVisibleIn (v : View) (vis : Visibility) : Bool :=
  match v with
  | .upload => !vis.uploadHidden
  | .loading => !vis.loadingHidden
  | .result => !vis.resultHidden

/-- The visibility configuration produced by the startup call
`showView('upload')` (src/index.tsx line 235). -/
def initialVisibility : Visibility := showView View.upload

/-- Card-composer font size (src/index.tsx line 176):
`Math.max(40, image.naturalWidth / 12)`. -/
def fontSize (w : ℚ) : ℚ := max 40 (w / 12)

/-- Caption band height (src/index.tsx line 177): `FONT_SIZE * 1.5`. -/
def bottomPadding (w : ℚ) : ℚ := fontSize w * 1.5

/-- Output canvas dimensions (src/index.tsx lines 183-184):
width `naturalWidth`, height `naturalHeight + BOTTOM_PADDING`. -/
def canvasDims (w h : ℚ) : ℚ × ℚ := (w, h + bottomPadding w)

/-! ## Helper lemmas -/

lemma genInv_updateGenerateButtonState (s : AppState) :
    GenInv (updateGenerateButtonState s) := by
  simp [GenInv, canGenerate, updateGenerateButtonState]

lemma generateClick_uploadedImageBase64 (s : AppState) (o : ServiceOutcome) :
    (generateClick s o).state.uploadedImageBase64 = s.uploadedImageBase64 := by
  unfold generateClick
  split
  · rfl
  · cases o with
    | threw => rfl
    | response parts => cases h : extractImage parts <;> simp [h]

lemma generateClick_selectedStyle (s : AppState) (o : ServiceOutcome) :
    (generateClick s o).state.selectedStyle = s.selectedStyle := by
  unfold generateClick
  split
  · rfl
  · cases o with
    | threw => rfl
    | response parts => cases h : extractImage parts <;> simp [h]

lemma generateClick_generateDisabled (s : AppState) (o : ServiceOutcome) :
    (generateClick s o).state.generateDisabled = s.generateDisabled := by
  unfold generateClick
  split
  · rfl
  · cases o with
    | threw => rfl
    | response parts => cases h : extractImage parts <;> simp [h]

lemma findInlinePart_eq_none {l : List Part}
    (h : ∀ p ∈ l, p.inlineData = none) : findInlinePart l = none := by
  induction l with
  | nil => rfl
  | cons p ps ih =>
      have hp : p.inlineData = none := h p (List.mem_cons_self p ps)
      simp only [findInlinePart, hp, Option.isSome_none, Bool.false_eq_true,
        if_false]
      exact ih (fun q hq => h q (List.mem_cons_of_mem p hq))

lemma findInlinePart_append {pre l : List Part}
    (h : ∀ q ∈ pre, q.inlineData = none) :
    findInlinePart (pre ++ l) = findInlinePart l := by
  induction pre with
  | nil => rfl
  | cons p ps ih =>
      have hp : p.inlineData = none := h p (List.mem_cons_self p ps)
      simp only [List.cons_append, findInlinePart, hp, Option.isSome_none,
        Bool.false_eq_true, if_false]
      exact ih (fun q hq => h q (List.mem_cons_of_mem p hq))

lemma extractImage_congr {l1 l2 : List Part}
    (h : l1.map Part.inlineData = l2.map Part.inlineData) :
    extractImage (some l1) = extractImage (some l2) := by
  simp only [extractImage, Option.some_bind]
  induction l1 generalizing l2 with
  | nil =>
      cases l2 with
      | nil => rfl
      | cons q l2 => simp at h
  | cons p l1 ih =>
      cases l2 with
      | nil => simp at h
      | cons q l2 =>
          simp only [List.map_cons, List.cons.injEq] at h
          obtain ⟨h1, h2⟩ := h
          cases hq : q.inlineData with
          | some dd => simp [findInlinePart, h1, hq]
          | none =>
              simp only [findInlinePart, h1, hq, Option.isSome_none,
                Bool.false_eq_true, if_false]
              exact ih h2

lemma fontSize_1200 : fontSize 1200 = 100 := by
  have h12 : (1200 : ℚ) / 12 = 100 := by norm_num
  rw [fontSize, h12]
  exact max_eq_right (by norm_num)

lemma bottomPadding_1200 : bottomPadding 1200 = 150 := by
  rw [bottomPadding, fontSize_1200]
  norm_num

lemma canvasDims_1200_800 : canvasDims 1200 800 = (1200, 950) := by
  rw [canvasDims, bottomPadding_1200]
  norm_num

/-! ## Claims -/

/-- Claim C1: for every application state, `canGenerate` (the generate
action being enabled) is true iff both an uploaded image and a style key
are set; setting either to empty makes it false; and every handler
(file upload, style click, generate click, reset) preserves this
equivalence, which also holds at startup. -/
theorem canGenerate_iff_image_and_style :
    GenInv initialState ∧
    (∀ (s : AppState) (e : Event), GenInv s → GenInv (step s e)) ∧
    (∀ s : AppState, GenInv s →
      (canGenerate s = true ↔
        truthy s.uploadedImageBase64 = true ∧ truthy s.selectedStyle = true)) ∧
    (∀ s : AppState, canGenerate (styleClick s (some "")) = false) ∧
    (∀ (s : AppState) (ftype : String),
      canGenerate (fileUploadChange s ftype (.ok "")).1 = false) ∧
    (∀ s : AppState, canGenerate (resetClick s) = false) := by
  refine ⟨by decide, ?_, ?_, ?_, ?_, ?_⟩
  · intro s e h
    cases e with
    | fileSelect ftype r =>
        cases r with
        | ok base64 => exact genInv_updateGenerateButtonState _
        | err => simpa [GenInv, canGenerate, step, fileUploadChange] using h
    | styleSelect d => exact genInv_updateGenerateButtonState _
    | generate o =>
        unfold GenInv canGenerate at h ⊢
        rw [show (step s (.generate o)) = (generateClick s o).state from rfl,
          generateClick_uploadedImageBase64, generateClick_selectedStyle,
          generateClick_generateDisabled]
        exact h
    | reset => simp [GenInv, canGenerate, step, resetClick, truthy]
  · intro s h
    unfold GenInv at h
    rw [h, Bool.and_eq_true]
  · intro s
    simp [canGenerate, styleClick, updateGenerateButtonState, truthy,
      show "".isEmpty = true from rfl]
  · intro s ftype
    simp [canGenerate, fileUploadChange, updateGenerateButtonState, truthy,
      show "".isEmpty = true from rfl]
  · intro s
    simp [canGenerate, resetClick]

/-- Witness for C1: the invariant holds after a concrete style click
from the startup state. -/
theorem canGenerate_iff_image_and_style_witness :
    GenInv (step initialState (.styleSelect (some "festive"))) :=
  canGenerate_iff_image_and_style.2.1 initialState
    (.styleSelect (some "festive")) (by decide)

/-- Counterexample for C2: with an image already stored, a file change
whose read fails leaves the stored base64 bytes untouched but has
already overwritten the stored MIME type with the new file's type, so
the prior state is not left untouched. -/
theorem setImage_error_mimeType_overwritten :
    ((fileUploadChange
        { uploadedImageBase64 := some "OLDBYTES"
          uploadedImageType := some "image/png"
          selectedStyle := none
          generateDisabled := true
          resultImageSrc := none
          view := .upload } "image/jpeg" .err).1.uploadedImageType
      ≠ some "image/png") ∧
    (fileUploadChange
        { uploadedImageBase64 := some "OLDBYTES"
          uploadedImageType := some "image/png"
          selectedStyle := none
          generateDisabled := true
          resultImageSrc := none
          view := .upload } "image/jpeg" .err).1.uploadedImageBase64
      = some "OLDBYTES" := by
  decide

/-- Claim C2 as amended: if the underlying file read fails, the handler
surfaces the error with an alert and leaves the stored image bytes, the
selected style, the button state, the result image and the view
untouched; the stored MIME type, however, has already been overwritten
with the new file's type before the read completed. -/
theorem setImage_error_propagation (s : AppState) (ftype : String) :
    (fileUploadChange s ftype .err).2 = true ∧
    (fileUploadChange s ftype .err).1.uploadedImageBase64
      = s.uploadedImageBase64 ∧
    (fileUploadChange s ftype .err).1.selectedStyle = s.selectedStyle ∧
    (fileUploadChange s ftype .err).1.generateDisabled = s.generateDisabled ∧
    (fileUploadChange s ftype .err).1.resultImageSrc = s.resultImageSrc ∧
    (fileUploadChange s ftype .err).1.view = s.view ∧
    (fileUploadChange s ftype .err).1.uploadedImageType = some ftype :=
  ⟨rfl, rfl, rfl, rfl, rfl, rfl, rfl⟩

/-- Counterexample for C3: for a 1200×800 source image the output canvas
is not 1200×(800+130); the caption band is 150, not 130, pixels tall. -/
theorem composeDownloadable_not_930 :
    canvasDims 1200 800 ≠ (1200, 800 + 130) := by
  rw [canvasDims_1200_800]
  intro hEq
  have h2 := congrArg Prod.snd hEq
  norm_num at h2

/-- Claim C3 as amended: the composer computes
`fontSize = max(40, width / 12)` and a caption band of `1.5 × fontSize`,
and allocates a canvas of size `(width, height + band)`; for a 1200×800
source image this gives fontSize 100, band 150, and a 1200×950 canvas. -/
theorem composeDownloadable_arithmetic :
    fontSize 1200 = 100 ∧
    bottomPadding 1200 = 150 ∧
    canvasDims 1200 800 = (1200, 950) ∧
    (∀ w h : ℚ, canvasDims w h = (w, h + 1.5 * max 40 (w / 12))) := by
  refine ⟨fontSize_1200, bottomPadding_1200, canvasDims_1200_800, ?_⟩
  intro w h
  rw [canvasDims, bottomPadding, fontSize, mul_comm]

/-- Counterexample for C4: in the src/unnamed/part_000 variant, a style
key absent from its table falls back to the fixed literal
`in a festive style`, which is not the table's `festive` entry. -/
theorem part000_fallback_not_table_entry :
    lookupStyle000 "vintage" = none ∧
    specificPrompt000 "vintage" = "in a festive style" ∧
    lookupStyle000 "festive" = some "in a luxurious and festive style with elegant gold elements, flowers, and pomegranates" ∧
    specificPrompt000 "vintage" ≠ "in a luxurious and festive style with elegant gold elements, flowers, and pomegranates" := by
  decide

/-- Claim C4 as amended: for a style key absent from the prompt table,
the src/index.tsx pipeline substitutes the table's `festive` entry and
always produces a prompt (never fails); the src/unnamed/part_000 variant
instead substitutes the fixed literal `in a festive style` into its base
prompt. -/
theorem unknown_style_falls_back_to_festive :
    (∀ key : String, lookupStyle key = none →
      promptFor key = lookupStyle "festive") ∧
    (∀ key : String, (promptFor key).isSome = true) ∧
    (∀ key : String, lookupStyle000 key = none →
      specificPrompt000 key = "in a festive style") := by
  refine ⟨?_, ?_, ?_⟩
  · intro key h
    simp [promptFor, h, truthy]
  · intro key
    unfold promptFor
    split
    · rename_i hcond
      cases hl : lookupStyle key with
      | none => rw [hl] at hcond; simp [truthy] at hcond
      | some p => simp [hl]
    · decide
  · intro key h
    simp [specificPrompt000, h]

/-- Witness for C4 (amended): at the absent key `vintage`, the main
table falls back to its `festive` entry and part_000 to its literal. -/
theorem unknown_style_falls_back_to_festive_witness :
    promptFor "vintage" = lookupStyle "festive" ∧
    specificPrompt000 "vintage" = "in a festive style" :=
  ⟨unknown_style_falls_back_to_festive.1 "vintage" (by decide),
   unknown_style_falls_back_to_festive.2.2 "vintage" (by decide)⟩

/-- Claim C5: when the generate guard passes, the handler never leaves
the view on Loading once it completes; and if the service response
contains no inline-image part, it alerts (GenerationFailed) and returns
the view to Upload. -/
theorem generate_no_image_returns_to_upload
    (s : AppState) (o : ServiceOutcome)
    (himg : truthy s.uploadedImageBase64 = true)
    (hsty : truthy s.selectedStyle = true)
    (htyp : truthy s.uploadedImageType = true) :
    (generateClick s o).state.view ≠ View.loading ∧
    (∀ parts : List Part, o = ServiceOutcome.response (some parts) →
      (∀ p ∈ parts, p.inlineData = none) →
      (generateClick s o).state.view = View.upload ∧
      (generateClick s o).alerted = true) := by
  have hguard : (!truthy s.uploadedImageBase64 || !truthy s.selectedStyle
      || !truthy s.uploadedImageType) = false := by
    rw [himg, hsty, htyp]; rfl
  constructor
  · cases o with
    | threw => simp [generateClick, hguard]
    | response parts =>
        cases hext : extractImage parts <;>
          simp [generateClick, hguard, hext]
  · intro parts ho hnone
    subst ho
    have hext : extractImage (some parts) = none := by
      simp [extractImage, findInlinePart_eq_none hnone]
    simp [generateClick, hguard, hext]

/-- Witness for C5: a concrete text-only response sends a concrete
ready-to-generate state back to the Upload view. -/
theorem generate_no_image_returns_to_upload_witness :
    (generateClick
      { uploadedImageBase64 := some "QUJD"
        uploadedImageType := some "image/png"
        selectedStyle := some "festive"
        generateDisabled := false
        resultImageSrc := none
        view := View.upload }
      (ServiceOutcome.response (some
        [{ inlineData := none, text := some "refused" }]))).state.view
      = View.upload :=
  ((generate_no_image_returns_to_upload _ _ (by decide) (by decide)
      (by decide)).2
    [{ inlineData := none, text := some "refused" }] rfl (by decide)).1

/-- Counterexample for C6: reset from a state holding a generated image
returns to the Upload view but does not clear the result image — its
`src` keeps the previous data URL instead of being cleared. -/
theorem reset_retains_generatedImage :
    (resetClick
      { uploadedImageBase64 := some "QUJD"
        uploadedImageType := some "image/png"
        selectedStyle := some "festive"
        generateDisabled := false
        resultImageSrc := some "data:image/png;base64,R0VO"
        view := View.result }).view = View.upload ∧
    (resetClick
      { uploadedImageBase64 := some "QUJD"
        uploadedImageType := some "image/png"
        selectedStyle := some "festive"
        generateDisabled := false
        resultImageSrc := some "data:image/png;base64,R0VO"
        view := View.result }).resultImageSrc
      = some "data:image/png;base64,R0VO" ∧
    some "data:image/png;base64,R0VO" ≠ (none : Option String) := by
  decide

/-- Claim C6 as amended: reset simultaneously clears the uploaded image
(bytes and MIME type) and the style key, returns the view to Upload, and
disables generation (`canGenerate` is false afterwards); the generated
image (`resultImage.src`) is left unchanged, not cleared. -/
theorem reset_clears_state (s : AppState) :
    (resetClick s).uploadedImageBase64 = none ∧
    (resetClick s).uploadedImageType = none ∧
    (resetClick s).selectedStyle = none ∧
    (resetClick s).view = View.upload ∧
    canGenerate (resetClick s) = false ∧
    (resetClick s).resultImageSrc = s.resultImageSrc :=
  ⟨rfl, rfl, rfl, rfl, rfl, rfl⟩

/-- Claim C7: `showView` is total over the three views; after any call
exactly the requested view is visible and the other two are hidden, and
the startup call shows the Upload view. -/
theorem showView_exactly_one_visible :
    (∀ v : View, visibleCount (showView v) = 1) ∧
    (∀ v w : View, viewVisibleIn w (showView v) = decide (w = v)) ∧
    initialVisibility = showView View.upload ∧
    viewVisibleIn View.upload initialVisibility = true ∧
    initialState.view = View.upload := by
  refine ⟨?_, ?_, rfl, rfl, rfl⟩
  · intro v; cases v <;> rfl
  · intro v w; cases v <;> cases w <;> rfl

/-- Claim C8: when the response's parts list contains an inline-image
part, the handler takes the first one (in list order) as the generated
image, ignoring earlier non-image parts, all text payloads, and every
later part. -/
theorem generate_extracts_first_inline_part
    (s : AppState) (pre post : List Part) (p : Part) (d : InlineData)
    (himg : truthy s.uploadedImageBase64 = true)
    (hsty : truthy s.selectedStyle = true)
    (htyp : truthy s.uploadedImageType = true)
    (hpre : ∀ q ∈ pre, q.inlineData = none)
    (hp : p.inlineData = some d) :
    (generateClick s
        (ServiceOutcome.response (some (pre ++ p :: post)))).state.resultImageSrc
      = some (mkDataUrl d.mimeType d.data) ∧
    (generateClick s
        (ServiceOutcome.response (some (pre ++ p :: post)))).state.view
      = View.result ∧
    (∀ post2 : List Part,
      extractImage (some (pre ++ p :: post2)) = some d) ∧
    (∀ parts1 parts2 : List Part,
      parts1.map Part.inlineData = parts2.map Part.inlineData →
      extractImage (some parts1) = extractImage (some parts2)) := by
  have hguard : (!truthy s.uploadedImageBase64 || !truthy s.selectedStyle
      || !truthy s.uploadedImageType) = false := by
    rw [himg, hsty, htyp]; rfl
  have hext : ∀ post2 : List Part,
      extractImage (some (pre ++ p :: post2)) = some d := by
    intro post2
    simp [extractImage, findInlinePart_append hpre, findInlinePart, hp]
  refine ⟨?_, ?_, hext, fun _ _ h => extractImage_congr h⟩
  · simp [generateClick, hguard, hext post]
  · simp [generateClick, hguard, hext post]

/-- Witness for C8: with a text part first, an inline part second, and
another inline part third, the handler stores exactly the second part's
data URL and shows the result view. -/
theorem generate_extracts_first_inline_part_witness :
    (generateClick
      { uploadedImageBase64 := some "QUJD"
        uploadedImageType := some "image/png"
        selectedStyle := some "festive"
        generateDisabled := false
        resultImageSrc := none
        view := View.upload }
      (ServiceOutcome.response (some
        ([{ inlineData := none, text := some "here is your card" }] ++
          { inlineData := some { data := "R0VO", mimeType := "image/png" }
            text := none } ::
          [{ inlineData := some { data := "TEFURQ", mimeType := "image/jpeg" }
             text := none }])))).state.resultImageSrc
      = some (mkDataUrl "image/png" "R0VO") :=
  (generate_extracts_first_inline_part _
    [{ inlineData := none, text := some "here is your card" }]
    [{ inlineData := some { data := "TEFURQ", mimeType := "image/jpeg" }
       text := none }]
    { inlineData := some { data := "R0VO", mimeType := "image/png" }
      text := none }
    { data := "R0VO", mimeType := "image/png" }
    (by decide) (by decide) (by decide) (by decide) rfl).1

/-- Counterexample for C9: the reset-after-success state is reachable,
sits outside any in-flight window, shows the Upload view, and still
retains the generated image — refuting the only-if direction. -/
theorem upload_view_retains_generatedImage :
    Reachable resetAfterSuccessState ∧
    resetAfterSuccessState.view = View.upload ∧
    resetAfterSuccessState.resultImageSrc
      = some "data:image/png;base64,R0VO" := by
  refine ⟨?_, by decide, by decide⟩
  exact Reachable.step (Reachable.step (Reachable.step
    (Reachable.step Reachable.init _) _) _) _

/-- Claim C9 as amended: in every reachable state, if the view is Result
then a generated image is present; the converse fails, since reset
returns to the Upload view without clearing the generated image. -/
theorem generatedImage_present_when_result :
    ∀ s : AppState, Reachable s → s.view = View.result →
      s.resultImageSrc.isSome = true := by
  intro s hs
  induction hs with
  | init => intro h; exact absurd h (by decide)
  | step hs e ih =>
      rename_i t
      cases e with
      | fileSelect ftype r =>
          intro h
          cases r with
          | ok base64 => exact ih h
          | err => exact ih h
      | styleSelect d => intro h; exact ih h
      | generate o =>
          intro h
          cases hgv : (!truthy t.uploadedImageBase64 || !truthy t.selectedStyle
              || !truthy t.uploadedImageType) with
          | true =>
              have hst : step t (Event.generate o) = t := by
                simp [step, generateClick, hgv]
              rw [hst] at h ⊢
              exact ih h
          | false =>
              cases o with
              | threw =>
                  have hv : (step t (Event.generate ServiceOutcome.threw)).view
                      = View.upload := by
                    simp [step, generateClick, hgv]
                  rw [hv] at h
                  exact absurd h (by decide)
              | response parts =>
                  cases hext : extractImage parts with
                  | some d =>
                      have hr : (step t (Event.generate
                          (ServiceOutcome.response parts))).resultImageSrc
                          = some (mkDataUrl d.mimeType d.data) := by
                        simp [step, generateClick, hgv, hext]
                      rw [hr]
                      rfl
                  | none =>
                      have hv : (step t (Event.generate
                          (ServiceOutcome.response parts))).view
                          = View.upload := by
                        simp [step, generateClick, hgv, hext]
                      rw [hv] at h
                      exact absurd h (by decide)
      | reset =>
          intro h
          simp [step, resetClick] at h

/-- Witness for C9 (amended): the concrete state after a successful
generation is reachable, shows the Result view, and the theorem yields
that its generated image is present. -/
theorem generatedImage_present_when_result_witness :
    afterSuccessState.resultImageSrc.isSome = true :=
  generatedImage_present_when_result afterSuccessState
    (Reachable.step (Reachable.step (Reachable.step Reachable.init _) _) _)
    (by decide)

/-- Claim C10: clicking generate while the stored image bytes, the MIME
type, or the style is unset only raises the notification: no request is
constructed or submitted and the state — view included — is returned
unchanged. -/
theorem generate_guard_blocks (s : AppState) (o : ServiceOutcome)
    (h : s.uploadedImageBase64 = none ∨ s.selectedStyle = none ∨
      s.uploadedImageType = none) :
    generateClick s o
      = { state := s, alerted := true, requested := false } := by
  have hguard : (!truthy s.uploadedImageBase64 || !truthy s.selectedStyle
      || !truthy s.uploadedImageType) = true := by
    rcases h with h | h | h <;> simp [h, truthy]
  simp [generateClick, hguard]

/-- Witness for C10: at the startup state (nothing set), a would-be
generate click leaves everything unchanged and only alerts. -/
theorem generate_guard_blocks_witness :
    generateClick initialState ServiceOutcome.threw
      = { state := initialState, alerted := true, requested := false } :=
  generate_guard_blocks initialState ServiceOutcome.threw (Or.inl rfl)

end RoshHashana
